import Mathlib

/-!
A verification development for the tag-driven cloud resource scheduler
(`src/lambda/lambda_function.py`).  The schedule evaluator, the autoscaling
capacity reconciler and the four resource drivers are embedded as pure Lean
functions; AWS mutation calls are reified as an `AwsCall` value paired with
the returned change record, so "issues a call and returns a record" is one
observable output.

String handling mirrors Python's `str.strip`, `str.lower`, `str.split` and
`int(...)` on ASCII input (digit-grouping underscores of Python's `int` are
not modelled; no tag in scope uses them).
-/

namespace Scheduler

/-- Whitespace characters stripped by Python `str.strip()` (ASCII range). -/
def isPySpace (c : Char) : Bool :=
  c = ' ' || c = '\t' || c = '\n' || c = '\r' || c = '\x0b' || c = '\x0c'

/-- Python `str.strip()`: drop leading and trailing whitespace. -/
def pyStrip (s : String) : String :=
  ⟨((s.data.dropWhile isPySpace).reverse.dropWhile isPySpace).reverse⟩

/-- Lowercase one ASCII character (Python `str.lower` on ASCII). -/
def lowerChar (c : Char) : Char :=
  if 'A' ≤ c && c ≤ 'Z' then Char.ofNat (c.toNat + 32) else c

/-- Python `str.lower()` on ASCII strings. -/
def pyLower (s : String) : String := ⟨s.data.map lowerChar⟩

/-- Split a character list at every occurrence of `c` (Python `str.split(c)`). -/
def splitChar (c : Char) : List Char → List Char → List (List Char)
  | [], acc => [acc.reverse]
  | x :: xs, acc =>
    if x == c then acc.reverse :: splitChar c xs [] else splitChar c xs (x :: acc)

/-- Python `s.split(c)` as a list of strings. -/
def pySplit (c : Char) (s : String) : List String :=
  (splitChar c s.data []).map (fun l => ⟨l⟩)

/-- Split at the first occurrence of `c` only (Python `s.split(c, 1)`):
returns the part before it and, when `c` occurs, the remainder after it. -/
def splitFirst (c : Char) : List Char → List Char → (List Char × Option (List Char))
  | [], acc => (acc.reverse, none)
  | x :: xs, acc =>
    if x == c then (acc.reverse, some xs) else splitFirst c xs (x :: acc)

/-- Value of a nonempty all-digit character list, `none` otherwise. -/
def parseDigits : List Char → Option Nat
  | [] => none
  | cs =>
    if cs.all Char.isDigit then
      some (cs.foldl (fun acc c => acc * 10 + (c.toNat - 48)) 0)
    else none

/-- Python `int(s)` on a string: optional surrounding whitespace, optional
sign, one or more decimal digits; `none` models the `ValueError`. -/
def pyInt (s : String) : Option Int :=
  match (pyStrip s).data with
  | [] => none
  | '+' :: rest => (parseDigits rest).map Int.ofNat
  | '-' :: rest => (parseDigits rest).map (fun n => -(Int.ofNat n))
  | cs => (parseDigits cs).map Int.ofNat

/-- A resource's tag set: the `{Key: Value}` dict, as an association list
where a later binding for the same key wins (Python dict construction). -/
abbrev Tags : Type := List (String × String)

/-- Python `tags.get(key)` on the dict: value of the last binding of `key`. -/
def tget (tags : Tags) (key : String) : Option String :=
  (List.find? (fun p => p.1 == key) (List.reverse tags)).map (fun p => p.2)

/-- `_parse_int`: `int(str(value).strip())`, `None` on absent or unparseable. -/
def parse_int (value : Option String) : Option Int :=
  match value with
  | none => none
  | some v => pyInt (pyStrip v)

/-- `_parse_time`: parse `"HH"` or `"HH:MM"` (hour 0–23, minute 0–59) into
minute-of-day; `none` models the raised/propagated `ValueError`. -/
def parse_time (value : String) : Option Nat :=
  let text := pyStrip value
  let hm : Option (Int × Int) :=
    if text.data.contains ':' then
      match splitFirst ':' text.data [] with
      | (h, some rest) =>
        match pyInt ⟨h⟩, pyInt ⟨rest⟩ with
        | some hour, some minute => some (hour, minute)
        | _, _ => none
      | (_, none) => none
    else
      (pyInt text).map (fun hour => (hour, 0))
  match hm with
  | none => none
  | some (hour, minute) =>
    if hour < 0 || hour > 23 || minute < 0 || minute > 59 then none
    else some (hour * 60 + minute).toNat

/-- `_should_run`: window membership with wrap-around. -/
def should_run (now_minutes start_minutes stop_minutes : Nat) : Bool :=
  if start_minutes = stop_minutes then false
  else if start_minutes < stop_minutes then
    decide (start_minutes ≤ now_minutes) && decide (now_minutes < stop_minutes)
  else
    decide (now_minutes ≥ start_minutes) || decide (now_minutes < stop_minutes)

/-- `_tag_value_match`: absent actual never matches; absent or
empty-after-trim expected matches any present value; otherwise trimmed
case-insensitive equality. -/
def tag_value_match (actual expected : Option String) : Bool :=
  match actual with
  | none => false
  | some a =>
    match expected with
    | none => true
    | some e =>
      let e := pyStrip e
      if e = "" then true
      else pyLower (pyStrip a) == pyLower e

/-- `_parse_weekdays`: comma-separated list, each part stripped and
lowercased, empty parts dropped; `none` for absent/blank/empty results. -/
def parse_weekdays (value : Option String) : Option (List String) :=
  match value with
  | none => none
  | some v =>
    let text := pyStrip v
    if text = "" then none
    else
      let parts := ((pySplit ',' text).filter (fun p => pyStrip p ≠ ""))
        |>.map (fun p => pyLower (pyStrip p))
      if parts = [] then none else some parts

/-- The schedule-relevant part of the settings (`tag_config` in `handler`). -/
structure Config where
  schedule_key : String
  schedule_value : String
  start_key : String
  stop_key : String
  weekday_key : String
deriving Repr, DecidableEq

/-- `_evaluate_schedule`: `none` is `undetermined`, `some true` is `run`,
`some false` is `halt`. -/
def evaluate_schedule (tags : Tags) (config : Config) (now_minutes : Nat)
    (now_token : String) : Option Bool :=
  if !(tag_value_match (tget tags config.schedule_key) (some config.schedule_value)) then
    none
  else
    match parse_weekdays (tget tags config.weekday_key) with
    | none => none
    | some schedule_weekend =>
      if schedule_weekend.isEmpty then none
      else if !(schedule_weekend.contains now_token) then none
      else
        match tget tags config.start_key, tget tags config.stop_key with
        | some start_value, some stop_value =>
          match parse_time start_value, parse_time stop_value with
          | some start_minutes, some stop_minutes =>
            some (should_run now_minutes start_minutes stop_minutes)
          | _, _ => none
        | _, _ => none

/-- `_extract_notification_tags`: `key=value` pairs for configured keys. -/
def extract_notification_tags (tags : Tags) (keys : List String) : String :=
  if keys.isEmpty then ""
  else
    String.intercalate ", " (keys.filterMap (fun key =>
      match tget tags key with
      | none => none
      | some value =>
        let text := pyStrip value
        if text = "" then none else some (key ++ "=" ++ text)))

/-- A Change Record (`_build_change`); `details` is `none` when the Python
dict carries no truthy `details` entry. -/
structure Change where
  action : String
  resource_type : String
  resource_id : Option String
  tag_summary : String
  details : Option String
deriving Repr, DecidableEq

/-- `_build_change`: the `details` key is set only for a truthy value. -/
def build_change (action resource_type : String) (resource_id : Option String)
    (tags : Tags) (notify_tag_keys : List String) (details : Option String) : Change :=
  { action := action
    resource_type := resource_type
    resource_id := resource_id
    tag_summary := extract_notification_tags tags notify_tag_keys
    details := match details with
      | some d => if d = "" then none else some d
      | none => none }

/-- The AWS mutation a driver issues, reified. -/
inductive AwsCall
  | startInstances (id : String)
  | stopInstances (id : String)
  | startDBInstance (id : Option String)
  | stopDBInstance (id : Option String)
  | startDBCluster (id : Option String)
  | stopDBCluster (id : Option String)
  | updateAutoScalingGroup (name : String) (minSize maxSize desiredCapacity : Int)
deriving Repr, DecidableEq

/-- Python truthiness of an optional string (`None` and `""` are falsy). -/
def truthyStr : Option String → Bool
  | none => false
  | some s => s ≠ ""

/-- An EC2 instance as the driver sees it: `InstanceId`, tags (already in
dict form), and `instance.get("State", {}).get("Name")`. -/
structure EC2Instance where
  instanceId : String
  tags : Tags
  state : Option String
deriving Repr, DecidableEq

/-- `_handle_instance`: the EC2 driver.  Returns the issued call together
with the change record, or `none` for a no-op. -/
def handle_instance (inst : EC2Instance) (config : Config) (now_minutes : Nat)
    (now_token : String) (notify_tag_keys : List String) : Option (AwsCall × Change) :=
  let instance_id := inst.instanceId
  let tags := inst.tags
  match evaluate_schedule tags config now_minutes now_token with
  | none => none
  | some shouldRun =>
    let state := inst.state
    if shouldRun && state == some "stopped" then
      some (.startInstances instance_id,
        build_change "start" "ec2" (some instance_id) tags notify_tag_keys none)
    else if !shouldRun && state == some "running" then
      some (.stopInstances instance_id,
        build_change "stop" "ec2" (some instance_id) tags notify_tag_keys none)
    else none

/-- An RDS DB instance descriptor (fields read by `_handle_rds_instance`). -/
structure RDSInstance where
  dbClusterIdentifier : Option String
  dbInstanceArn : Option String
  dbInstanceStatus : Option String
  dbInstanceIdentifier : Option String
deriving Repr, DecidableEq

/-- `_handle_rds_instance`.  `tagsOf` models `_list_rds_tags`: the
provider's tag lookup keyed by ARN. -/
def handle_rds_instance (tagsOf : String → Tags) (inst : RDSInstance)
    (config : Config) (now_minutes : Nat) (now_token : String)
    (notify_tag_keys : List String) : Option (AwsCall × Change) :=
  if truthyStr inst.dbClusterIdentifier then none
  else if !truthyStr inst.dbInstanceArn then none
  else
    let arn := inst.dbInstanceArn.getD ""
    let tags := tagsOf arn
    match evaluate_schedule tags config now_minutes now_token with
    | none => none
    | some shouldRun =>
      let status := inst.dbInstanceStatus
      let identifier := inst.dbInstanceIdentifier
      if shouldRun && status == some "stopped" then
        some (.startDBInstance identifier,
          build_change "start" "rds-instance" identifier tags notify_tag_keys none)
      else if !shouldRun && status == some "available" then
        some (.stopDBInstance identifier,
          build_change "stop" "rds-instance" identifier tags notify_tag_keys none)
      else none

/-- An RDS DB cluster descriptor (fields read by `_handle_rds_cluster`). -/
structure RDSCluster where
  dbClusterArn : Option String
  status : Option String
  dbClusterIdentifier : Option String
deriving Repr, DecidableEq

/-- `_handle_rds_cluster`. -/
def handle_rds_cluster (tagsOf : String → Tags) (cluster : RDSCluster)
    (config : Config) (now_minutes : Nat) (now_token : String)
    (notify_tag_keys : List String) : Option (AwsCall × Change) :=
  if !truthyStr cluster.dbClusterArn then none
  else
    let arn := cluster.dbClusterArn.getD ""
    let tags := tagsOf arn
    match evaluate_schedule tags config now_minutes now_token with
    | none => none
    | some shouldRun =>
      let status := cluster.status
      let identifier := cluster.dbClusterIdentifier
      if shouldRun && status == some "stopped" then
        some (.startDBCluster identifier,
          build_change "start" "rds-cluster" identifier tags notify_tag_keys none)
      else if !shouldRun && status == some "available" then
        some (.stopDBCluster identifier,
          build_change "stop" "rds-cluster" identifier tags notify_tag_keys none)
      else none

/-- The three capacity tag keys (`asg_config` in `handler`). -/
structure ASGKeys where
  min_key : String
  max_key : String
  desired_key : String
deriving Repr, DecidableEq

/-- An autoscaling group descriptor: name, tags (in dict form), and the
raw `MinSize`/`MaxSize`/`DesiredCapacity` entries.  boto3 delivers the
sizes as Python ints; `_parse_int` round-trips them through `str`, so they
are carried here in that string form. -/
structure ASGroup where
  autoScalingGroupName : Option String
  tags : Tags
  minSize : Option String
  maxSize : Option String
  desiredCapacity : Option String
deriving Repr, DecidableEq

/-- The `{MinSize, MaxSize, DesiredCapacity}` triple with possibly-failed
parses (`_asg_sizes` output and `_build_asg_target` input/output). -/
structure Sizes where
  MinSize : Option Int
  MaxSize : Option Int
  DesiredCapacity : Option Int
deriving Repr, DecidableEq

/-- A fully-resolved capacity triple (`_sanitize_asg_target` output). -/
structure SizesV where
  MinSize : Int
  MaxSize : Int
  DesiredCapacity : Int
deriving Repr, DecidableEq

/-- `_asg_sizes`: parse the group's current capacity fields. -/
def asg_sizes (group : ASGroup) : Sizes :=
  { MinSize := parse_int group.minSize
    MaxSize := parse_int group.maxSize
    DesiredCapacity := parse_int group.desiredCapacity }

/-- `_build_asg_target`: each field from its capacity tag when that parses,
else from the current value. -/
def build_asg_target (current : Sizes) (tags : Tags) (asg_keys : ASGKeys) : Sizes :=
  { MinSize := match parse_int (tget tags asg_keys.min_key) with
      | none => current.MinSize
      | some v => some v
    MaxSize := match parse_int (tget tags asg_keys.max_key) with
      | none => current.MaxSize
      | some v => some v
    DesiredCapacity := match parse_int (tget tags asg_keys.desired_key) with
      | none => current.DesiredCapacity
      | some v => some v }

/-- `_sanitize_asg_target`: reject missing or negative values and
min > max; clamp desired into [min, max]. -/
def sanitize_asg_target (target : Sizes) : Option SizesV :=
  match target.MinSize, target.MaxSize, target.DesiredCapacity with
  | some min_size, some max_size, some desired =>
    if min_size < 0 || max_size < 0 || desired < 0 then none
    else if min_size > max_size then none
    else
      let desired := if desired < min_size then min_size else desired
      let desired := if desired > max_size then max_size else desired
      some ⟨min_size, max_size, desired⟩
  | _, _, _ => none

/-- `_handle_autoscaling_group`: the autoscaling driver. -/
def handle_autoscaling_group (group : ASGroup) (tag_config : Config)
    (asg_keys : ASGKeys) (now_minutes : Nat) (now_token : String)
    (notify_tag_keys : List String) : Option (AwsCall × Change) :=
  if !truthyStr group.autoScalingGroupName then none
  else
    let name := group.autoScalingGroupName.getD ""
    let tags := group.tags
    match evaluate_schedule tags tag_config now_minutes now_token with
    | none => none
    | some shouldRun =>
      let current := asg_sizes group
      if current.MinSize.isNone || current.MaxSize.isNone
          || current.DesiredCapacity.isNone then none
      else if (tget tags asg_keys.min_key).isNone
          || (tget tags asg_keys.max_key).isNone
          || (tget tags asg_keys.desired_key).isNone then none
      else if shouldRun then
        match sanitize_asg_target (build_asg_target current tags asg_keys) with
        | none => none
        | some target =>
          if some target.MinSize == current.MinSize
              && some target.MaxSize == current.MaxSize
              && some target.DesiredCapacity == current.DesiredCapacity then none
          else
            some (.updateAutoScalingGroup name target.MinSize target.MaxSize
                target.DesiredCapacity,
              build_change "scale" "asg" (some name) tags notify_tag_keys
                (some ("min=" ++ toString target.MinSize
                  ++ " max=" ++ toString target.MaxSize
                  ++ " desired=" ++ toString target.DesiredCapacity)))
      else
        if current.MinSize == some 0 && current.MaxSize == some 0
            && current.DesiredCapacity == some 0 then none
        else
          some (.updateAutoScalingGroup name 0 0 0,
            build_change "scale" "asg" (some name) tags notify_tag_keys
              (some "min=0 max=0 desired=0"))

/-! ## Helper lemmas -/

/-- A falsy optional string is absent or empty. -/
theorem truthyStr_false {o : Option String} (h : truthyStr o = false) :
    o = none ∨ o = some "" := by
  cases o with
  | none => exact Or.inl rfl
  | some s =>
    right
    simp [truthyStr] at h
    simp [h]

/-! ## Claim theorems -/

/-- Claim C1: for start minute `s`, stop minute `e` and now minute `n` in
[0,1439], the window evaluation yields halt when `s = e`; when `s < e` it
yields run exactly when `s ≤ n < e`; when `s > e` (crossing midnight) it
yields run exactly when `n ≥ s` or `n < e`. -/
theorem C1_window_membership (s e n : Nat)
    (hs : s ≤ 1439) (he : e ≤ 1439) (hn : n ≤ 1439) :
    (s = e → should_run n s e = false) ∧
    (s < e → (should_run n s e = true ↔ s ≤ n ∧ n < e)) ∧
    (e < s → (should_run n s e = true ↔ n ≥ s ∨ n < e)) := by
  unfold should_run
  refine ⟨?_, ?_, ?_⟩ <;> intro h <;> split_ifs <;> simp_all <;> omega

/-- Witness for C1 at the spec's wrap example s=1380, e=360, n=1439. -/
theorem C1_window_membership_witness : should_run 1439 1380 360 = true :=
  ((C1_window_membership 1380 360 1439 (by decide) (by decide) (by decide)).2.2
    (by decide)).mpr (Or.inl (by decide))

/-- Claim C2: every binary start/stop driver (EC2 instance; RDS instance
that is not a cluster member; RDS cluster) returns none on an undetermined
verdict; on run with status "stopped" it issues a start call and returns a
start change record; on halt with status "running" (EC2) or "available"
(RDS) it issues a stop call and returns a stop change record; every other
status combination is a no-op. -/
theorem C2_binary_driver_rule :
    (∀ (inst : EC2Instance) (cfg : Config) (n : Nat) (tok : String)
        (keys : List String),
      (evaluate_schedule inst.tags cfg n tok = none →
        handle_instance inst cfg n tok keys = none) ∧
      (evaluate_schedule inst.tags cfg n tok = some true →
        (inst.state = some "stopped" →
          handle_instance inst cfg n tok keys =
            some (.startInstances inst.instanceId,
              build_change "start" "ec2" (some inst.instanceId) inst.tags keys none)) ∧
        (inst.state ≠ some "stopped" →
          handle_instance inst cfg n tok keys = none)) ∧
      (evaluate_schedule inst.tags cfg n tok = some false →
        (inst.state = some "running" →
          handle_instance inst cfg n tok keys =
            some (.stopInstances inst.instanceId,
              build_change "stop" "ec2" (some inst.instanceId) inst.tags keys none)) ∧
        (inst.state ≠ some "running" →
          handle_instance inst cfg n tok keys = none))) ∧
    (∀ (tagsOf : String → Tags) (inst : RDSInstance) (cfg : Config) (n : Nat)
        (tok : String) (keys : List String) (arn : String),
      truthyStr inst.dbClusterIdentifier = false →
      inst.dbInstanceArn = some arn → arn ≠ "" →
      (evaluate_schedule (tagsOf arn) cfg n tok = none →
        handle_rds_instance tagsOf inst cfg n tok keys = none) ∧
      (evaluate_schedule (tagsOf arn) cfg n tok = some true →
        (inst.dbInstanceStatus = some "stopped" →
          handle_rds_instance tagsOf inst cfg n tok keys =
            some (.startDBInstance inst.dbInstanceIdentifier,
              build_change "start" "rds-instance" inst.dbInstanceIdentifier
                (tagsOf arn) keys none)) ∧
        (inst.dbInstanceStatus ≠ some "stopped" →
          handle_rds_instance tagsOf inst cfg n tok keys = none)) ∧
      (evaluate_schedule (tagsOf arn) cfg n tok = some false →
        (inst.dbInstanceStatus = some "available" →
          handle_rds_instance tagsOf inst cfg n tok keys =
            some (.stopDBInstance inst.dbInstanceIdentifier,
              build_change "stop" "rds-instance" inst.dbInstanceIdentifier
                (tagsOf arn) keys none)) ∧
        (inst.dbInstanceStatus ≠ some "available" →
          handle_rds_instance tagsOf inst cfg n tok keys = none))) ∧
    (∀ (tagsOf : String → Tags) (cl : RDSCluster) (cfg : Config) (n : Nat)
        (tok : String) (keys : List String) (arn : String),
      cl.dbClusterArn = some arn → arn ≠ "" →
      (evaluate_schedule (tagsOf arn) cfg n tok = none →
        handle_rds_cluster tagsOf cl cfg n tok keys = none) ∧
      (evaluate_schedule (tagsOf arn) cfg n tok = some true →
        (cl.status = some "stopped" →
          handle_rds_cluster tagsOf cl cfg n tok keys =
            some (.startDBCluster cl.dbClusterIdentifier,
              build_change "start" "rds-cluster" cl.dbClusterIdentifier
                (tagsOf arn) keys none)) ∧
        (cl.status ≠ some "stopped" →
          handle_rds_cluster tagsOf cl cfg n tok keys = none)) ∧
      (evaluate_schedule (tagsOf arn) cfg n tok = some false →
        (cl.status = some "available" →
          handle_rds_cluster tagsOf cl cfg n tok keys =
            some (.stopDBCluster cl.dbClusterIdentifier,
              build_change "stop" "rds-cluster" cl.dbClusterIdentifier
                (tagsOf arn) keys none)) ∧
        (cl.status ≠ some "available" →
          handle_rds_cluster tagsOf cl cfg n tok keys = none))) := by
  refine ⟨?_, ?_, ?_⟩
  · intro inst cfg n tok keys
    refine ⟨fun hev => by simp [handle_instance, hev], fun hev => ⟨?_, ?_⟩,
      fun hev => ⟨?_, ?_⟩⟩ <;> intro hst <;> simp [handle_instance, hev, hst]
  · intro tagsOf inst cfg n tok keys arn hcl harn harn2
    rcases truthyStr_false hcl with h | h <;>
    refine ⟨fun hev => by simp [handle_rds_instance, h, harn, harn2, truthyStr, hev],
      fun hev => ⟨?_, ?_⟩, fun hev => ⟨?_, ?_⟩⟩ <;> intro hst <;>
      simp [handle_rds_instance, h, harn, harn2, truthyStr, hev, hst]
  · intro tagsOf cl cfg n tok keys arn harn harn2
    refine ⟨fun hev => by simp [handle_rds_cluster, harn, harn2, truthyStr, hev],
      fun hev => ⟨?_, ?_⟩, fun hev => ⟨?_, ?_⟩⟩ <;> intro hst <;>
      simp [handle_rds_cluster, harn, harn2, truthyStr, hev, hst]

/-- Witness for C2: the EC2 start branch at a concrete instance, and the
RDS-instance stop branch at a concrete instance. -/
theorem C2_binary_driver_rule_witness :
    handle_instance
        ⟨"i-1",
         [("Schedule", "True"), ("Schedule_Weekend", "mon,tue,wed,thu,fri"),
          ("Schedule_Start", "09:00"), ("Schedule_Stop", "18:00")],
         some "stopped"⟩
        ⟨"Schedule", "True", "Schedule_Start", "Schedule_Stop", "Schedule_Weekend"⟩
        600 "wed" [] =
      some (.startInstances "i-1",
        build_change "start" "ec2" (some "i-1")
          [("Schedule", "True"), ("Schedule_Weekend", "mon,tue,wed,thu,fri"),
           ("Schedule_Start", "09:00"), ("Schedule_Stop", "18:00")] [] none) :=
  ((C2_binary_driver_rule.1
      ⟨"i-1",
       [("Schedule", "True"), ("Schedule_Weekend", "mon,tue,wed,thu,fri"),
        ("Schedule_Start", "09:00"), ("Schedule_Stop", "18:00")],
       some "stopped"⟩
      ⟨"Schedule", "True", "Schedule_Start", "Schedule_Stop", "Schedule_Weekend"⟩
      600 "wed" []).2.1 (by decide)).1 rfl

/-- The provider-side effect of a driver call on an EC2 instance: a start
leaves the instance "running", a stop leaves it "stopped"; tags unchanged. -/
def applyEC2Effect (inst : EC2Instance) (call : AwsCall) : EC2Instance :=
  match call with
  | .startInstances _ => { inst with state := some "running" }
  | .stopInstances _ => { inst with state := some "stopped" }
  | _ => inst

/-- Claim C3: if a first invocation of the EC2 driver issues a mutating
call and the instance then reaches the matching terminal status, a second
invocation with the same tags, config and time returns none — two
successive evaluations yield exactly the first invocation's single call
and change record. -/
theorem C3_ec2_idempotence (inst : EC2Instance) (cfg : Config) (n : Nat)
    (tok : String) (keys : List String) (call : AwsCall) (ch : Change)
    (h : handle_instance inst cfg n tok keys = some (call, ch)) :
    handle_instance (applyEC2Effect inst call) cfg n tok keys = none := by
  unfold handle_instance at h ⊢
  cases hev : evaluate_schedule inst.tags cfg n tok with
  | none => simp [hev] at h
  | some shouldRun =>
    simp only [hev] at h
    cases shouldRun with
    | true =>
      by_cases hst : inst.state == some "stopped"
      · simp only [hst, Bool.true_and, if_true, Option.some.injEq,
          Prod.mk.injEq] at h
        obtain ⟨h1, h2⟩ := h
        subst h1
        simp [applyEC2Effect, hev]
      · simp [hst] at h
    | false =>
      by_cases hst : inst.state == some "running"
      · simp only [hst, Bool.false_and, Bool.not_false, Bool.true_and,
          Bool.false_eq_true, if_false, if_true, Option.some.injEq,
          Prod.mk.injEq] at h
        obtain ⟨h1, h2⟩ := h
        subst h1
        simp [applyEC2Effect, hev]
      · simp [hst] at h

/-- Witness for C3: a started instance, now "running", is left alone. -/
theorem C3_ec2_idempotence_witness :
    handle_instance
        (applyEC2Effect
          ⟨"i-1",
           [("Schedule", "True"), ("Schedule_Weekend", "mon,tue,wed,thu,fri"),
            ("Schedule_Start", "09:00"), ("Schedule_Stop", "18:00")],
           some "stopped"⟩
          (.startInstances "i-1"))
        ⟨"Schedule", "True", "Schedule_Start", "Schedule_Stop", "Schedule_Weekend"⟩
        600 "wed" [] = none :=
  C3_ec2_idempotence
    ⟨"i-1",
     [("Schedule", "True"), ("Schedule_Weekend", "mon,tue,wed,thu,fri"),
      ("Schedule_Start", "09:00"), ("Schedule_Stop", "18:00")],
     some "stopped"⟩
    ⟨"Schedule", "True", "Schedule_Start", "Schedule_Stop", "Schedule_Weekend"⟩
    600 "wed" [] (.startInstances "i-1")
    (build_change "start" "ec2" (some "i-1")
      [("Schedule", "True"), ("Schedule_Weekend", "mon,tue,wed,thu,fri"),
       ("Schedule_Start", "09:00"), ("Schedule_Stop", "18:00")] [] none)
    (by decide)

/-- With all current sizes parsed, each target field is the tag's parse
with the current value as fallback. -/
theorem build_asg_target_eq (cmin cmax cdes : Int) (tags : Tags) (keys : ASGKeys) :
    build_asg_target ⟨some cmin, some cmax, some cdes⟩ tags keys =
      ⟨some ((parse_int (tget tags keys.min_key)).getD cmin),
       some ((parse_int (tget tags keys.max_key)).getD cmax),
       some ((parse_int (tget tags keys.desired_key)).getD cdes)⟩ := by
  simp only [build_asg_target]
  cases parse_int (tget tags keys.min_key) <;>
    cases parse_int (tget tags keys.max_key) <;>
    cases parse_int (tget tags keys.desired_key) <;> rfl

/-- Sanitization rejects a negative value or min above max. -/
theorem sanitize_asg_target_none (a b c : Int)
    (h : a < 0 ∨ b < 0 ∨ c < 0 ∨ b < a) :
    sanitize_asg_target ⟨some a, some b, some c⟩ = none := by
  simp only [sanitize_asg_target]
  split_ifs with h1 h2
  · rfl
  · rfl
  · exfalso
    simp only [Bool.or_eq_true, decide_eq_true_eq, not_or, not_lt] at h1
    rcases h with h | h | h | h <;> omega

/-- Sanitization of admissible values clamps desired into [min, max]. -/
theorem sanitize_asg_target_some (a b c : Int)
    (ha : 0 ≤ a) (hb : 0 ≤ b) (hc : 0 ≤ c) (hab : a ≤ b) :
    sanitize_asg_target ⟨some a, some b, some c⟩ =
      some ⟨a, b, max a (min c b)⟩ := by
  simp only [sanitize_asg_target]
  split_ifs with h1 h2 <;>
    first
      | (exfalso; simp only [Bool.or_eq_true, decide_eq_true_eq] at h1; omega)
      | (simp only [Option.some.injEq, SizesV.mk.injEq, true_and, max_def,
          min_def]; split_ifs <;> omega)

/-- Reduction of the autoscaling driver once the gate conditions hold:
named group, a determined verdict, parseable current sizes, and all three
capacity tags present. -/
theorem handle_asg_reduce (g : ASGroup) (cfg : Config) (keys : ASGKeys)
    (n : Nat) (tok : String) (notify : List String)
    (name tvmin tvmax tvdes : String) (cmin cmax cdes : Int) (b : Bool)
    (hname : g.autoScalingGroupName = some name) (hname2 : name ≠ "")
    (hev : evaluate_schedule g.tags cfg n tok = some b)
    (hcm : parse_int g.minSize = some cmin)
    (hcx : parse_int g.maxSize = some cmax)
    (hcd : parse_int g.desiredCapacity = some cdes)
    (htm : tget g.tags keys.min_key = some tvmin)
    (htx : tget g.tags keys.max_key = some tvmax)
    (htd : tget g.tags keys.desired_key = some tvdes) :
    handle_autoscaling_group g cfg keys n tok notify =
      if b then
        match sanitize_asg_target
            (build_asg_target ⟨some cmin, some cmax, some cdes⟩ g.tags keys) with
        | none => none
        | some target =>
          if target.MinSize = cmin ∧ target.MaxSize = cmax
              ∧ target.DesiredCapacity = cdes then none
          else
            some (.updateAutoScalingGroup name target.MinSize target.MaxSize
                target.DesiredCapacity,
              build_change "scale" "asg" (some name) g.tags notify
                (some ("min=" ++ toString target.MinSize
                  ++ " max=" ++ toString target.MaxSize
                  ++ " desired=" ++ toString target.DesiredCapacity)))
      else
        if cmin = 0 ∧ cmax = 0 ∧ cdes = 0 then none
        else
          some (.updateAutoScalingGroup name 0 0 0,
            build_change "scale" "asg" (some name) g.tags notify
              (some "min=0 max=0 desired=0")) := by
  have hT : truthyStr g.autoScalingGroupName = true := by
    rw [hname]; simp [truthyStr, hname2]
  unfold handle_autoscaling_group
  rw [hT]
  simp only [Bool.not_true, Bool.false_eq_true, if_false, hname,
    Option.getD_some, hev, asg_sizes, hcm, hcx, hcd, htm, htx, htd,
    Option.isNone_some, Bool.or_self, Bool.or_false, Bool.false_or]
  cases b with
  | true =>
    simp only [if_true]
    cases hsan : sanitize_asg_target
        (build_asg_target ⟨some cmin, some cmax, some cdes⟩ g.tags keys) with
    | none => simp
    | some target =>
      simp only [beq_iff_eq, Option.some.injEq, Bool.and_eq_true,
        decide_eq_true_eq, and_assoc]
  | false =>
    simp only [Bool.false_eq_true, if_false]
    simp only [beq_iff_eq, Option.some.injEq, Bool.and_eq_true,
      decide_eq_true_eq, and_assoc]

/-- Claim C4: autoscaling run path.  With all three capacity tags present
and a run verdict, each target value comes from its tag when it parses as
an integer, else from the current value; the driver returns none when a
resolved value is negative or resolved min exceeds resolved max; desired
is clamped into [min, max]; a target equal to the current triple is a
no-op, and otherwise one update-capacity call is issued with a scale
change record whose detail states the three resolved values. -/
theorem C4_asg_run_path (g : ASGroup) (cfg : Config) (keys : ASGKeys)
    (n : Nat) (tok : String) (notify : List String)
    (name tvmin tvmax tvdes : String) (cmin cmax cdes : Int)
    (rmin rmax rdes sdes : Int)
    (hname : g.autoScalingGroupName = some name) (hname2 : name ≠ "")
    (hev : evaluate_schedule g.tags cfg n tok = some true)
    (hcm : parse_int g.minSize = some cmin)
    (hcx : parse_int g.maxSize = some cmax)
    (hcd : parse_int g.desiredCapacity = some cdes)
    (htm : tget g.tags keys.min_key = some tvmin)
    (htx : tget g.tags keys.max_key = some tvmax)
    (htd : tget g.tags keys.desired_key = some tvdes)
    (hrm : rmin = (parse_int (tget g.tags keys.min_key)).getD cmin)
    (hrx : rmax = (parse_int (tget g.tags keys.max_key)).getD cmax)
    (hrd : rdes = (parse_int (tget g.tags keys.desired_key)).getD cdes)
    (hsd : sdes = max rmin (min rdes rmax)) :
    ((rmin < 0 ∨ rmax < 0 ∨ rdes < 0 ∨ rmax < rmin) →
      handle_autoscaling_group g cfg keys n tok notify = none) ∧
    (0 ≤ rmin → 0 ≤ rmax → 0 ≤ rdes → rmin ≤ rmax →
      ((rmin = cmin ∧ rmax = cmax ∧ sdes = cdes) →
        handle_autoscaling_group g cfg keys n tok notify = none) ∧
      (¬(rmin = cmin ∧ rmax = cmax ∧ sdes = cdes) →
        handle_autoscaling_group g cfg keys n tok notify =
          some (.updateAutoScalingGroup name rmin rmax sdes,
            build_change "scale" "asg" (some name) g.tags notify
              (some ("min=" ++ toString rmin ++ " max=" ++ toString rmax
                ++ " desired=" ++ toString sdes))))) := by
  subst hsd hrm hrx hrd
  have hred := handle_asg_reduce g cfg keys n tok notify name tvmin tvmax tvdes
    cmin cmax cdes true hname hname2 hev hcm hcx hcd htm htx htd
  rw [build_asg_target_eq] at hred
  simp only [if_true] at hred
  constructor
  · intro hbad
    rw [hred, sanitize_asg_target_none _ _ _ hbad]
  · intro h0m h0x h0d hmx
    have hs := sanitize_asg_target_some _ _ _ h0m h0x h0d hmx
    constructor
    · intro heq
      rw [hred, hs]
      dsimp only
      rw [if_pos ⟨heq.1, heq.2.1, heq.2.2⟩]
    · intro hne
      rw [hred, hs]
      dsimp only
      rw [if_neg hne]

/-- Witness for C4: tags (min,max,desired)=(3,2,4) over current (1,5,2)
give resolved min 3 above resolved max 2, so the driver returns none. -/
theorem C4_asg_run_path_witness :
    handle_autoscaling_group
        ⟨some "asg-1",
         [("Schedule", "True"), ("Schedule_Weekend", "mon,tue,wed,thu,fri"),
          ("Schedule_Start", "09:00"), ("Schedule_Stop", "18:00"),
          ("Schedule_Asg_Min", "3"), ("Schedule_Asg_Max", "2"),
          ("Schedule_Asg_Desired", "4")],
         some "1", some "5", some "2"⟩
        ⟨"Schedule", "True", "Schedule_Start", "Schedule_Stop", "Schedule_Weekend"⟩
        ⟨"Schedule_Asg_Min", "Schedule_Asg_Max", "Schedule_Asg_Desired"⟩
        600 "wed" [] = none :=
  (C4_asg_run_path
    ⟨some "asg-1",
     [("Schedule", "True"), ("Schedule_Weekend", "mon,tue,wed,thu,fri"),
      ("Schedule_Start", "09:00"), ("Schedule_Stop", "18:00"),
      ("Schedule_Asg_Min", "3"), ("Schedule_Asg_Max", "2"),
      ("Schedule_Asg_Desired", "4")],
     some "1", some "5", some "2"⟩
    ⟨"Schedule", "True", "Schedule_Start", "Schedule_Stop", "Schedule_Weekend"⟩
    ⟨"Schedule_Asg_Min", "Schedule_Asg_Max", "Schedule_Asg_Desired"⟩
    600 "wed" [] "asg-1" "3" "2" "4" 1 5 2 3 2 4 3
    (by decide) (by decide) (by decide) (by decide) (by decide) (by decide)
    (by decide) (by decide) (by decide) (by decide) (by decide) (by decide)
    (by decide)).1 (by decide)

/-- Claim C5: autoscaling halt path.  With all three capacity tags present
and a halt verdict, the target is (0,0,0): a current triple already at
(0,0,0) is a no-op, and otherwise exactly one update-capacity call zeroing
the group is issued with a scale change record. -/
theorem C5_asg_halt_path (g : ASGroup) (cfg : Config) (keys : ASGKeys)
    (n : Nat) (tok : String) (notify : List String)
    (name tvmin tvmax tvdes : String) (cmin cmax cdes : Int)
    (hname : g.autoScalingGroupName = some name) (hname2 : name ≠ "")
    (hev : evaluate_schedule g.tags cfg n tok = some false)
    (hcm : parse_int g.minSize = some cmin)
    (hcx : parse_int g.maxSize = some cmax)
    (hcd : parse_int g.desiredCapacity = some cdes)
    (htm : tget g.tags keys.min_key = some tvmin)
    (htx : tget g.tags keys.max_key = some tvmax)
    (htd : tget g.tags keys.desired_key = some tvdes) :
    ((cmin = 0 ∧ cmax = 0 ∧ cdes = 0) →
      handle_autoscaling_group g cfg keys n tok notify = none) ∧
    (¬(cmin = 0 ∧ cmax = 0 ∧ cdes = 0) →
      handle_autoscaling_group g cfg keys n tok notify =
        some (.updateAutoScalingGroup name 0 0 0,
          build_change "scale" "asg" (some name) g.tags notify
            (some "min=0 max=0 desired=0"))) := by
  have hred := handle_asg_reduce g cfg keys n tok notify name tvmin tvmax tvdes
    cmin cmax cdes false hname hname2 hev hcm hcx hcd htm htx htd
  simp only [Bool.false_eq_true, if_false] at hred
  exact ⟨fun h => by rw [hred, if_pos h], fun h => by rw [hred, if_neg h]⟩

/-- Witness for C5: a group at (2,2,1) with a halt verdict is zeroed. -/
theorem C5_asg_halt_path_witness :
    handle_autoscaling_group
        ⟨some "asg-1",
         [("Schedule", "True"), ("Schedule_Weekend", "mon,tue,wed,thu,fri"),
          ("Schedule_Start", "09:00"), ("Schedule_Stop", "18:00"),
          ("Schedule_Asg_Min", "2"), ("Schedule_Asg_Max", "2"),
          ("Schedule_Asg_Desired", "1")],
         some "2", some "2", some "1"⟩
        ⟨"Schedule", "True", "Schedule_Start", "Schedule_Stop", "Schedule_Weekend"⟩
        ⟨"Schedule_Asg_Min", "Schedule_Asg_Max", "Schedule_Asg_Desired"⟩
        1200 "wed" [] =
      some (.updateAutoScalingGroup "asg-1" 0 0 0,
        build_change "scale" "asg" (some "asg-1")
          [("Schedule", "True"), ("Schedule_Weekend", "mon,tue,wed,thu,fri"),
           ("Schedule_Start", "09:00"), ("Schedule_Stop", "18:00"),
           ("Schedule_Asg_Min", "2"), ("Schedule_Asg_Max", "2"),
           ("Schedule_Asg_Desired", "1")] []
          (some "min=0 max=0 desired=0")) :=
  (C5_asg_halt_path
    ⟨some "asg-1",
     [("Schedule", "True"), ("Schedule_Weekend", "mon,tue,wed,thu,fri"),
      ("Schedule_Start", "09:00"), ("Schedule_Stop", "18:00"),
      ("Schedule_Asg_Min", "2"), ("Schedule_Asg_Max", "2"),
      ("Schedule_Asg_Desired", "1")],
     some "2", some "2", some "1"⟩
    ⟨"Schedule", "True", "Schedule_Start", "Schedule_Stop", "Schedule_Weekend"⟩
    ⟨"Schedule_Asg_Min", "Schedule_Asg_Max", "Schedule_Asg_Desired"⟩
    1200 "wed" [] "asg-1" "2" "2" "1" 2 2 1
    (by decide) (by decide) (by decide) (by decide) (by decide) (by decide)
    (by decide) (by decide) (by decide)).2 (by decide)

/-- Claim C6: a partial capacity tag set never produces a mutation — if
any of the three capacity tags is absent the autoscaling driver returns
none, whatever the verdict and the current capacity triple. -/
theorem C6_asg_capacity_precondition (g : ASGroup) (cfg : Config)
    (keys : ASGKeys) (n : Nat) (tok : String) (notify : List String)
    (h : tget g.tags keys.min_key = none ∨ tget g.tags keys.max_key = none
      ∨ tget g.tags keys.desired_key = none) :
    handle_autoscaling_group g cfg keys n tok notify = none := by
  unfold handle_autoscaling_group
  by_cases hT : truthyStr g.autoScalingGroupName = true
  · cases hev : evaluate_schedule g.tags cfg n tok with
    | none => simp [hT, hev]
    | some b => rcases h with h | h | h <;> simp [hT, hev, h]
  · simp only [Bool.not_eq_true] at hT
    simp [hT]

/-- Witness for C6: run verdict, desired tag missing, nonzero current
triple — still a no-op. -/
theorem C6_asg_capacity_precondition_witness :
    handle_autoscaling_group
        ⟨some "asg-1",
         [("Schedule", "True"), ("Schedule_Weekend", "mon,tue,wed,thu,fri"),
          ("Schedule_Start", "09:00"), ("Schedule_Stop", "18:00"),
          ("Schedule_Asg_Min", "2"), ("Schedule_Asg_Max", "8")],
         some "1", some "10", some "1"⟩
        ⟨"Schedule", "True", "Schedule_Start", "Schedule_Stop", "Schedule_Weekend"⟩
        ⟨"Schedule_Asg_Min", "Schedule_Asg_Max", "Schedule_Asg_Desired"⟩
        600 "wed" [] = none :=
  C6_asg_capacity_precondition
    ⟨some "asg-1",
     [("Schedule", "True"), ("Schedule_Weekend", "mon,tue,wed,thu,fri"),
      ("Schedule_Start", "09:00"), ("Schedule_Stop", "18:00"),
      ("Schedule_Asg_Min", "2"), ("Schedule_Asg_Max", "8")],
     some "1", some "10", some "1"⟩
    ⟨"Schedule", "True", "Schedule_Start", "Schedule_Stop", "Schedule_Weekend"⟩
    ⟨"Schedule_Asg_Min", "Schedule_Asg_Max", "Schedule_Asg_Desired"⟩
    600 "wed" [] (Or.inr (Or.inr (by decide)))

/-- Counterexample to claim C7 as stated: with current capacity (1,10,1),
min tag "2", max tag "8" and the desired-capacity tag absent, the driver
returns none (the all-tags-present precondition fails) instead of issuing
an update-capacity call with target (2,8,2). -/
theorem C7_absent_desired_counterexample :
    handle_autoscaling_group
        ⟨some "asg-1",
         [("Schedule", "True"), ("Schedule_Weekend", "mon,tue,wed,thu,fri"),
          ("Schedule_Start", "09:00"), ("Schedule_Stop", "18:00"),
          ("Schedule_Asg_Min", "2"), ("Schedule_Asg_Max", "8")],
         some "1", some "10", some "1"⟩
        ⟨"Schedule", "True", "Schedule_Start", "Schedule_Stop", "Schedule_Weekend"⟩
        ⟨"Schedule_Asg_Min", "Schedule_Asg_Max", "Schedule_Asg_Desired"⟩
        600 "wed" [] = none := by
  decide

/-- Claim C7 (amended): for a group with current capacity (1,10,1),
capacity tags min "2" and max "8", a desired-capacity tag that is present
but does not parse as an integer (falling back to the current desired 1),
and a run verdict, the driver issues an update-capacity call with target
(2,8,2) — the fallback desired 1 clamped up to the new min — and returns a
scale change record with detail "min=2 max=8 desired=2". -/
theorem C7_asg_desired_clamp (g : ASGroup) (cfg : Config) (keys : ASGKeys)
    (n : Nat) (tok : String) (notify : List String) (name tvdes : String)
    (hname : g.autoScalingGroupName = some name) (hname2 : name ≠ "")
    (hev : evaluate_schedule g.tags cfg n tok = some true)
    (hcm : parse_int g.minSize = some 1)
    (hcx : parse_int g.maxSize = some 10)
    (hcd : parse_int g.desiredCapacity = some 1)
    (htm : tget g.tags keys.min_key = some "2")
    (htx : tget g.tags keys.max_key = some "8")
    (htd : tget g.tags keys.desired_key = some tvdes)
    (htdp : parse_int (some tvdes) = none) :
    handle_autoscaling_group g cfg keys n tok notify =
      some (.updateAutoScalingGroup name 2 8 2,
        build_change "scale" "asg" (some name) g.tags notify
          (some "min=2 max=8 desired=2")) := by
  have hred := handle_asg_reduce g cfg keys n tok notify name "2" "8" tvdes
    1 10 1 true hname hname2 hev hcm hcx hcd htm htx htd
  rw [build_asg_target_eq] at hred
  simp only [if_true, htm, htx, htd, htdp] at hred
  have e2 : parse_int (some "2") = some 2 := by decide
  have e8 : parse_int (some "8") = some 8 := by decide
  rw [e2, e8] at hred
  simp only [Option.getD_some, Option.getD_none] at hred
  have hsan : sanitize_asg_target ⟨some 2, some 8, some 1⟩ =
      some ⟨2, 8, 2⟩ := by decide
  rw [hsan] at hred
  rw [hred]
  dsimp only
  rw [if_neg (by decide)]
  have hdet : ("min=" ++ toString (2 : Int) ++ " max=" ++ toString (8 : Int)
      ++ " desired=" ++ toString (2 : Int)) = "min=2 max=8 desired=2" := by rfl
  rw [hdet]

/-- Witness for C7 (amended), with desired tag value "x". -/
theorem C7_asg_desired_clamp_witness :
    handle_autoscaling_group
        ⟨some "asg-1",
         [("Schedule", "True"), ("Schedule_Weekend", "mon,tue,wed,thu,fri"),
          ("Schedule_Start", "09:00"), ("Schedule_Stop", "18:00"),
          ("Schedule_Asg_Min", "2"), ("Schedule_Asg_Max", "8"),
          ("Schedule_Asg_Desired", "x")],
         some "1", some "10", some "1"⟩
        ⟨"Schedule", "True", "Schedule_Start", "Schedule_Stop", "Schedule_Weekend"⟩
        ⟨"Schedule_Asg_Min", "Schedule_Asg_Max", "Schedule_Asg_Desired"⟩
        600 "wed" [] =
      some (.updateAutoScalingGroup "asg-1" 2 8 2,
        build_change "scale" "asg" (some "asg-1")
          [("Schedule", "True"), ("Schedule_Weekend", "mon,tue,wed,thu,fri"),
           ("Schedule_Start", "09:00"), ("Schedule_Stop", "18:00"),
           ("Schedule_Asg_Min", "2"), ("Schedule_Asg_Max", "8"),
           ("Schedule_Asg_Desired", "x")] []
          (some "min=2 max=8 desired=2")) :=
  C7_asg_desired_clamp
    ⟨some "asg-1",
     [("Schedule", "True"), ("Schedule_Weekend", "mon,tue,wed,thu,fri"),
      ("Schedule_Start", "09:00"), ("Schedule_Stop", "18:00"),
      ("Schedule_Asg_Min", "2"), ("Schedule_Asg_Max", "8"),
      ("Schedule_Asg_Desired", "x")],
     some "1", some "10", some "1"⟩
    ⟨"Schedule", "True", "Schedule_Start", "Schedule_Stop", "Schedule_Weekend"⟩
    ⟨"Schedule_Asg_Min", "Schedule_Asg_Max", "Schedule_Asg_Desired"⟩
    600 "wed" [] "asg-1" "x"
    (by decide) (by decide) (by decide) (by decide) (by decide) (by decide)
    (by decide) (by decide) (by decide) (by decide)

/-- The evaluator yields `none` whenever a time tag is absent or fails to
parse, whatever the earlier stages say. -/
theorem evaluate_schedule_window_none (tags : Tags) (cfg : Config) (n : Nat)
    (tok : String)
    (H : tget tags cfg.start_key = none ∨ tget tags cfg.stop_key = none ∨
      (∃ sv, tget tags cfg.start_key = some sv ∧ parse_time sv = none) ∨
      (∃ zv, tget tags cfg.stop_key = some zv ∧ parse_time zv = none)) :
    evaluate_schedule tags cfg n tok = none := by
  unfold evaluate_schedule
  by_cases hf : (!(tag_value_match (tget tags cfg.schedule_key)
      (some cfg.schedule_value))) = true
  · rw [if_pos hf]
  · rw [if_neg hf]
    cases parse_weekdays (tget tags cfg.weekday_key) with
    | none => rfl
    | some l =>
      dsimp only
      by_cases hemp : l.isEmpty = true
      · rw [if_pos hemp]
      · rw [if_neg hemp]
        by_cases hcont : (!(l.contains tok)) = true
        · rw [if_pos hcont]
        · rw [if_neg hcont]
          rcases H with h | h | ⟨sv, h1, h2⟩ | ⟨zv, h1, h2⟩
          · rw [h]
          · rw [h]
            cases tget tags cfg.start_key <;> rfl
          · rw [h1]
            cases hz : tget tags cfg.stop_key with
            | none => rfl
            | some zv =>
              dsimp only
              rw [h2]
          · cases hs : tget tags cfg.start_key with
            | none => rfl
            | some sv =>
              rw [h1]
              dsimp only
              rw [h2]
              cases parse_time sv <;> rfl

/-- Claim C8: the weekday tag is parsed as a comma-separated,
case-insensitively and whitespace-tolerantly normalized list (so
"Mon, TUE ,wed" parses to mon,tue,wed); an absent, empty or otherwise
unparseable value makes the evaluator yield undetermined; and when the
current weekday token is not a member of the parsed set the evaluator
yields undetermined, never halt. -/
theorem C8_weekday_stage :
    parse_weekdays (some "Mon, TUE ,wed") = some ["mon", "tue", "wed"] ∧
    (∀ (tags : Tags) (cfg : Config) (n : Nat) (tok : String),
      parse_weekdays (tget tags cfg.weekday_key) = none →
      evaluate_schedule tags cfg n tok = none) ∧
    (∀ (tags : Tags) (cfg : Config) (n : Nat) (tok : String) (l : List String),
      parse_weekdays (tget tags cfg.weekday_key) = some l →
      l.contains tok = false →
      evaluate_schedule tags cfg n tok = none) := by
  refine ⟨by decide, ?_, ?_⟩
  · intro tags cfg n tok hp
    unfold evaluate_schedule
    by_cases hf : (!(tag_value_match (tget tags cfg.schedule_key)
        (some cfg.schedule_value))) = true
    · rw [if_pos hf]
    · rw [if_neg hf, hp]
  · intro tags cfg n tok l hp hc
    unfold evaluate_schedule
    by_cases hf : (!(tag_value_match (tget tags cfg.schedule_key)
        (some cfg.schedule_value))) = true
    · rw [if_pos hf]
    · rw [if_neg hf, hp]
      dsimp only
      by_cases hemp : l.isEmpty = true
      · rw [if_pos hemp]
      · rw [if_neg hemp, if_pos (by rw [hc]; rfl)]

/-- Witness for C8: Saturday is outside the parsed set mon,tue,wed, so the
evaluator yields undetermined despite a window that covers the time. -/
theorem C8_weekday_stage_witness :
    evaluate_schedule
        [("Schedule", "True"), ("Schedule_Weekend", "Mon, TUE ,wed"),
         ("Schedule_Start", "09:00"), ("Schedule_Stop", "18:00")]
        ⟨"Schedule", "True", "Schedule_Start", "Schedule_Stop", "Schedule_Weekend"⟩
        600 "sat" = none :=
  C8_weekday_stage.2.2
    [("Schedule", "True"), ("Schedule_Weekend", "Mon, TUE ,wed"),
     ("Schedule_Start", "09:00"), ("Schedule_Stop", "18:00")]
    ⟨"Schedule", "True", "Schedule_Start", "Schedule_Stop", "Schedule_Weekend"⟩
    600 "sat" ["mon", "tue", "wed"] (by decide) (by decide)

/-- Claim C9: the schedule-flag tag must be present, else the evaluator
yields undetermined; an empty-after-trim required value matches any
present tag value; otherwise the flag matches exactly when the trimmed
values are case-insensitively equal. -/
theorem C9_schedule_flag :
    (∀ (tags : Tags) (cfg : Config) (n : Nat) (tok : String),
      tget tags cfg.schedule_key = none →
      evaluate_schedule tags cfg n tok = none) ∧
    (∀ a e : String, pyStrip e = "" →
      tag_value_match (some a) (some e) = true) ∧
    (∀ a e : String, pyStrip e ≠ "" →
      (tag_value_match (some a) (some e) = true ↔
        pyLower (pyStrip a) = pyLower (pyStrip e))) := by
  refine ⟨?_, ?_, ?_⟩
  · intro tags cfg n tok h
    unfold evaluate_schedule
    rw [h]
    rfl
  · intro a e h
    unfold tag_value_match
    simp [h]
  · intro a e h
    unfold tag_value_match
    simp [h]

/-- Witness for C9: empty-after-trim required value matches any value,
and "  True " matches required "true" case-insensitively. -/
theorem C9_schedule_flag_witness :
    tag_value_match (some "anything") (some "   ") = true ∧
    tag_value_match (some "  True ") (some "true") = true :=
  ⟨C9_schedule_flag.2.1 "anything" "   " (by decide),
   (C9_schedule_flag.2.2 "  True " "true" (by decide)).mpr (by decide)⟩

/-- Claim C10: an absent start-time or stop-time tag, or one that fails to
parse as "HH"/"HH:MM" with hour 0–23 and minute 0–59, makes the evaluator
yield undetermined, and the driver then returns none for that resource
rather than raising an error. -/
theorem C10_time_tags :
    (∀ (tags : Tags) (cfg : Config) (n : Nat) (tok : String),
      tget tags cfg.start_key = none →
      evaluate_schedule tags cfg n tok = none) ∧
    (∀ (tags : Tags) (cfg : Config) (n : Nat) (tok : String),
      tget tags cfg.stop_key = none →
      evaluate_schedule tags cfg n tok = none) ∧
    (∀ (tags : Tags) (cfg : Config) (n : Nat) (tok : String) (sv : String),
      tget tags cfg.start_key = some sv → parse_time sv = none →
      evaluate_schedule tags cfg n tok = none) ∧
    (∀ (tags : Tags) (cfg : Config) (n : Nat) (tok : String) (zv : String),
      tget tags cfg.stop_key = some zv → parse_time zv = none →
      evaluate_schedule tags cfg n tok = none) ∧
    (∀ (inst : EC2Instance) (cfg : Config) (n : Nat) (tok : String)
        (keys : List String),
      evaluate_schedule inst.tags cfg n tok = none →
      handle_instance inst cfg n tok keys = none) := by
  refine ⟨?_, ?_, ?_, ?_, ?_⟩
  · intro tags cfg n tok h
    exact evaluate_schedule_window_none tags cfg n tok (Or.inl h)
  · intro tags cfg n tok h
    exact evaluate_schedule_window_none tags cfg n tok (Or.inr (Or.inl h))
  · intro tags cfg n tok sv h1 h2
    exact evaluate_schedule_window_none tags cfg n tok
      (Or.inr (Or.inr (Or.inl ⟨sv, h1, h2⟩)))
  · intro tags cfg n tok zv h1 h2
    exact evaluate_schedule_window_none tags cfg n tok
      (Or.inr (Or.inr (Or.inr ⟨zv, h1, h2⟩)))
  · intro inst cfg n tok keys hev
    simp [handle_instance, hev]

/-- Witness for C10: a malformed stop time "25:00" leaves the evaluator
undetermined and the driver idle on a running instance inside the window. -/
theorem C10_time_tags_witness :
    evaluate_schedule
        [("Schedule", "True"), ("Schedule_Weekend", "mon,tue,wed,thu,fri"),
         ("Schedule_Start", "09:00"), ("Schedule_Stop", "25:00")]
        ⟨"Schedule", "True", "Schedule_Start", "Schedule_Stop", "Schedule_Weekend"⟩
        600 "wed" = none :=
  C10_time_tags.2.2.2.1
    [("Schedule", "True"), ("Schedule_Weekend", "mon,tue,wed,thu,fri"),
     ("Schedule_Start", "09:00"), ("Schedule_Stop", "25:00")]
    ⟨"Schedule", "True", "Schedule_Start", "Schedule_Stop", "Schedule_Weekend"⟩
    600 "wed" "25:00" (by decide) (by decide)

end Scheduler
